import Mathlib

/-
  Verification development for the rsmemcache client library
  (src/lib.rs, src/selector.rs, src/errors.rs, src/item.rs).

  Shallow embedding conventions:
  - Rust `SocketAddr` is modelled by its textual form (`String`); the code
    only stores parsed addresses, compares them, and keys a HashMap by
    `addr.to_string()`, so the textual form is a faithful carrier.
  - A key is its byte sequence `List Nat` (each entry a byte value);
    Rust `key.len()` / `key.as_bytes()` are `.length` / the list itself.
  - `std` library calls that sit outside the repository are passed in as
    explicit function parameters: `parse` models `str::parse::<SocketAddr>`
    and `connect` models `TcpStream::connect`.
  - A Rust panic (out-of-bounds slice, `%` by zero after an `as u32` cast)
    is an explicit `Outcome.panic` result.
  - Mutation of `&mut self` is explicit state passing: a function that
    mutates returns the updated structure alongside its result.
-/

namespace Rsmemcache

/-- Connections are abstract handles; the pool logic never inspects them. -/
abbrev Conn := Nat

/-- `std::net::SocketAddr`, carried by its textual form. -/
abbrev SocketAddr := String

/-- errors.rs: `WriteReadLineError`. The wrapped `io::Error` payloads are
carried as their display strings. -/
inductive WriteReadLineError where
  | WriteError (msg : String)
  | FlushError (msg : String)
  | ReadError (msg : String)
  deriving DecidableEq

/-- errors.rs: `OperationError`, one constructor per source variant. -/
inductive OperationError where
  | CacheMissError
  | CASConflictError
  | NotStoredError
  | ServerError
  | ClientError (msg : String)
  | NoStatsError
  | MalformedKeyError
  | NoServersError
  | CorruptResponseError (msg : String)
  | IoError (e : WriteReadLineError)
  deriving DecidableEq

/-- Result of a call that can also abort the process: `ok` / `err` mirror
`Result`, `panic` marks a Rust panic. -/
inductive Outcome (α : Type) where
  | ok (a : α)
  | err (e : OperationError)
  | panic
  deriving DecidableEq

/-- The reflected CRC-32 (IEEE) polynomial 0xEDB88320 used by the
`crc32fast` crate. -/
def CRC32_POLY : Nat := 0xEDB88320

/-- One bit step of reflected CRC-32: values stay below 2^32. -/
def crc32_step (crc : Nat) : Nat :=
  if crc % 2 = 1 then (crc / 2) ^^^ CRC32_POLY else crc / 2

/-- Fold one input byte into the running CRC (reflected algorithm). -/
def crc32_update (crc : Nat) (b : Nat) : Nat :=
  crc32_step^[8] (crc ^^^ (b % 256))

/-- Run the CRC over a byte list from a given initial register. -/
def crc32_run : Nat → List Nat → Nat
  | crc, [] => crc
  | crc, b :: rest => crc32_run (crc32_update crc b) rest

/-- `crc32fast::hash(data)`: init 0xFFFFFFFF, final xor 0xFFFFFFFF. -/
def crc32 (data : List Nat) : Nat :=
  (crc32_run 0xFFFFFFFF data) ^^^ 0xFFFFFFFF

/-- selector.rs: `ServerList { addrs, key_buffer_pool }`. The buffer is a
fixed `[u8; 256]` array, modelled as a byte list (reachable states keep it
at length 256). -/
structure ServerList where
  addrs : List SocketAddr
  key_buffer_pool : List Nat
  deriving DecidableEq

/-- selector.rs: `ServerList::new()` — empty address list, zeroed 256-byte
key buffer. -/
def ServerList.new : ServerList :=
  { addrs := [], key_buffer_pool := List.replicate 256 0 }

/-- The message built by `set_servers` on a parse failure:
`format!("invalid server address provided: {}", error)` where `error` is
`AddrParseError`, whose Display is the fixed string
"invalid socket address syntax". -/
def INVALID_ADDR_MSG : String :=
  "invalid server address provided: invalid socket address syntax"

/-- selector.rs: `ServerList::set_servers`. Iterates the given strings,
pushing each parsed address onto `self.addrs`, and returns
`Err(OperationError::Client(..))` at the first parse failure (addresses
pushed so far stay in `self.addrs`). `parse` models
`str::parse::<SocketAddr>` (None = parse failure). -/
def ServerList.set_servers (parse : String → Option SocketAddr) :
    ServerList → List String → Except OperationError Unit × ServerList
  | s, [] => (Except.ok (), s)
  | s, srv :: rest =>
    match parse srv with
    | some addr =>
        ServerList.set_servers parse { s with addrs := s.addrs ++ [addr] } rest
    | none => (Except.error (OperationError.ClientError INVALID_ADDR_MSG), s)

/-- selector.rs: `ServerList::pick_server`, including its panics:
`self.key_buffer_pool[..key.len()]` panics when `key.len() > 256`
(slicing a `[u8; 256]` past its end), and `checksum % self.addrs.len() as u32`
panics when the `as u32` cast of the length is zero. On the hashing path the
key is first copied over the buffer prefix (the rest of the old buffer
content survives), then the checksum is taken over that prefix. The index
`checksum % (len as u32)` is below `addrs.length`, so the `getD` default is
never reached. -/
def ServerList.pick_server (sl : ServerList) (key : List Nat) :
    Outcome SocketAddr × ServerList :=
  if sl.addrs.length = 0 then
    (Outcome.err (OperationError.ClientError "no servers configured or available"), sl)
  else if sl.addrs.length = 1 then
    (Outcome.ok (sl.addrs.getD 0 ""), sl)
  else if 256 < key.length then
    (Outcome.panic, sl)
  else if sl.addrs.length % 4294967296 = 0 then
    (Outcome.panic,
     { sl with key_buffer_pool := key ++ sl.key_buffer_pool.drop key.length })
  else
    (Outcome.ok (sl.addrs.getD
        (crc32 ((key ++ sl.key_buffer_pool.drop key.length).take key.length)
          % (sl.addrs.length % 4294967296)) ""),
     { sl with key_buffer_pool := key ++ sl.key_buffer_pool.drop key.length })

/-- lib.rs: `DEFAULT_NET_TIMEOUT`. -/
def DEFAULT_NET_TIMEOUT : Nat := 500

/-- lib.rs: `DEFAULT_MAX_IDLE_CONNS`. -/
def DEFAULT_MAX_IDLE_CONNS : Nat := 2

/-- lib.rs: `Client { selector, timeout, free_conns, max_idle_cons }`.
The `HashMap<String, Vec<Conn>>` is an association list with at most one
binding per address string. -/
structure Client where
  selector : ServerList
  timeout : Nat
  free_conns : List (String × List Conn)
  max_idle_cons : Nat
  deriving DecidableEq

/-- lib.rs: `Client::new_from_selector`. -/
def Client.new_from_selector (selector : ServerList) : Client :=
  { selector := selector,
    timeout := DEFAULT_NET_TIMEOUT,
    free_conns := [],
    max_idle_cons := DEFAULT_MAX_IDLE_CONNS }

/-- lib.rs: `Client::new` — builds a fresh `ServerList`, runs
`set_servers` (propagating its error with `?`), and wraps the selector. -/
def Client.new (parse : String → Option SocketAddr) (servers : List String) :
    Except OperationError Client :=
  match ServerList.set_servers parse ServerList.new servers with
  | (Except.error e, _) => Except.error e
  | (Except.ok _, sl) => Except.ok (Client.new_from_selector sl)

/-- `HashMap::insert` / in-place vec replacement on an association list:
replaces the binding for `a` when present, else appends a new binding. -/
def updateConns : List (String × List Conn) → String → List Conn →
    List (String × List Conn)
  | [], a, v => [(a, v)]
  | (k, old) :: rest, a, v =>
    if k = a then (k, v) :: rest else (k, old) :: updateConns rest a v

/-- lib.rs: `Client::put_free_conn` — unconditionally pushes the connection
onto the address's vec (`Vec::push` appends at the end), inserting a fresh
one-element vec when the address has no entry. `addr.to_string()` is the
identity in this embedding. Note: `max_idle_cons` is never consulted. -/
def Client.put_free_conn (c : Client) (addr : SocketAddr) (conn : Conn) : Client :=
  match c.free_conns.lookup addr with
  | some addr_conns =>
      { c with free_conns := updateConns c.free_conns addr (addr_conns ++ [conn]) }
  | none => { c with free_conns := updateConns c.free_conns addr [conn] }

/-- lib.rs: `Client::get_free_conn` — `Vec::pop` on the address's vec
(removes and returns the last element; `None` on an empty or missing vec). -/
def Client.get_free_conn (c : Client) (addr : SocketAddr) : Option Conn × Client :=
  match c.free_conns.lookup addr with
  | some addr_conns =>
    match addr_conns.getLast? with
    | some conn =>
        (some conn,
         { c with free_conns := updateConns c.free_conns addr addr_conns.dropLast })
    | none => (none, c)
  | none => (none, c)

/-- lib.rs: `Client::get_conn` — returns a pooled connection when one is
free, else dials. `connect` models `TcpStream::connect` (None = dial
failure); both the dial error and the `Conn::new` error are mapped by the
source to `OperationError::NoServers` via `map_err`, and `Conn::new`'s own
`try_clone` failure (also mapped to `NoServers`) is not modelled
separately. -/
def Client.get_conn (connect : SocketAddr → Option Conn) (c : Client)
    (addr : SocketAddr) : Except OperationError Conn × Client :=
  match Client.get_free_conn c addr with
  | (some conn, c1) => (Except.ok conn, c1)
  | (none, c1) =>
    match connect addr with
    | some stream => (Except.ok stream, c1)
    | none => (Except.error OperationError.NoServersError, c1)

/-- lib.rs: `legal_key` — rejects a key longer than 250 bytes and accepts
everything else (no content check is performed). -/
def legal_key (key : List Nat) : Bool :=
  if key.length > 250 then false else true

/-- Transcribed from the spec sentence "Key validity (≤250 bytes, no
embedded whitespace/control bytes)": accepts exactly the keys of at most
250 bytes all of whose bytes are printable non-space ASCII (not a control
byte, not whitespace). Stated only to be compared with `legal_key`. -/
def legal_key_spec (key : List Nat) : Bool :=
  decide (key.length ≤ 250) && key.all (fun b => decide (32 < b ∧ b < 127))

/- Concrete inputs used by witnesses and counterexamples. -/

/-- A `ServerList` with no configured servers. -/
def sl0 : ServerList := { addrs := [], key_buffer_pool := List.replicate 256 0 }

/-- A `ServerList` with exactly one configured server. -/
def sl1 : ServerList :=
  { addrs := ["127.0.0.1:11211"], key_buffer_pool := List.replicate 256 0 }

/-- A `ServerList` with two configured servers and a zeroed buffer. -/
def sl2 : ServerList :=
  { addrs := ["127.0.0.1:11211", "127.0.0.1:11212"],
    key_buffer_pool := List.replicate 256 0 }

/-- Same addresses as `sl2` but a different buffer residue, as left by some
earlier `pick_server` call. -/
def sl2b : ServerList :=
  { addrs := ["127.0.0.1:11211", "127.0.0.1:11212"],
    key_buffer_pool := List.replicate 256 7 }

/-- The client built from the single-server list. -/
def c1 : Client := Client.new_from_selector sl1

/-- A concrete model of `str::parse::<SocketAddr>` that accepts exactly one
address string. -/
def parse0 : String → Option SocketAddr :=
  fun s => if s = "127.0.0.1:11211" then some s else none

/- Helper lemmas (shared; not claim-facing). -/

/-- On the hashing path (at least two servers, key short enough to copy,
address count below 2^32) `pick_server` returns the address indexed by the
checksum of the key modulo the address count, and overwrites the buffer
prefix with the key. -/
lemma pick_server_large (sl : ServerList) (key : List Nat)
    (h1 : 1 < sl.addrs.length) (h2 : sl.addrs.length < 4294967296)
    (h3 : key.length ≤ 256) :
    ServerList.pick_server sl key =
      (Outcome.ok (sl.addrs.getD (crc32 key % sl.addrs.length) ""),
       { sl with key_buffer_pool := key ++ sl.key_buffer_pool.drop key.length }) := by
  have e1 : sl.addrs.length % 4294967296 = sl.addrs.length := Nat.mod_eq_of_lt h2
  unfold ServerList.pick_server
  rw [if_neg (by omega), if_neg (by omega), if_neg (by omega), e1,
    if_neg (by omega), List.take_left]

/-- When every string parses, `set_servers` succeeds and appends the
parsed addresses, in order, to the existing address list. -/
lemma set_servers_ok (parse : String → Option SocketAddr) :
    ∀ (l : List String) (s : ServerList), (∀ x ∈ l, (parse x).isSome) →
      ServerList.set_servers parse s l =
        (Except.ok (), { s with addrs := s.addrs ++ l.filterMap parse })
  | [], s, _ => by simp [ServerList.set_servers]
  | srv :: rest, s, h => by
    obtain ⟨a, ha⟩ := Option.isSome_iff_exists.mp (h srv (by simp))
    have hrest : ∀ x ∈ rest, (parse x).isSome := fun x hx => h x (by simp [hx])
    simp only [ServerList.set_servers, ha]
    rw [set_servers_ok parse rest _ hrest]
    simp [List.filterMap_cons, ha]

/-- When the strings are a parse-ok prefix, a failing entry, then anything,
`set_servers` returns the parse error and the state keeps the prefix's
addresses already pushed. -/
lemma set_servers_err_state (parse : String → Option SocketAddr) :
    ∀ (pre : List String) (srv : String) (post : List String) (s : ServerList),
      (∀ x ∈ pre, (parse x).isSome) → parse srv = none →
      ServerList.set_servers parse s (pre ++ srv :: post) =
        (Except.error (OperationError.ClientError INVALID_ADDR_MSG),
         { s with addrs := s.addrs ++ pre.filterMap parse })
  | [], srv, post, s, _, hfail => by
    simp [ServerList.set_servers, hfail]
  | p :: pre, srv, post, s, hpre, hfail => by
    obtain ⟨a, ha⟩ := Option.isSome_iff_exists.mp (hpre p (by simp))
    have hpre' : ∀ x ∈ pre, (parse x).isSome := fun x hx => hpre x (by simp [hx])
    rw [List.cons_append]
    simp only [ServerList.set_servers, ha]
    rw [set_servers_err_state parse pre srv post _ hpre' hfail]
    simp [List.filterMap_cons, ha]

/-- When some string fails to parse, `set_servers` returns the parse
error, whatever the strings around it are. -/
lemma set_servers_first_err (parse : String → Option SocketAddr) :
    ∀ (l : List String) (s : ServerList), (∃ srv ∈ l, parse srv = none) →
      (ServerList.set_servers parse s l).1 =
        Except.error (OperationError.ClientError INVALID_ADDR_MSG)
  | [], _, h => absurd h (by simp)
  | srv :: rest, s, h => by
    rw [ServerList.set_servers]
    cases hp : parse srv with
    | none => rfl
    | some a =>
      obtain ⟨x, hx, hxfail⟩ := h
      rcases List.mem_cons.mp hx with hx1 | hx2
      · rw [hx1] at hxfail; rw [hxfail] at hp; exact absurd hp (by simp)
      · exact set_servers_first_err parse rest _ ⟨x, hx2, hxfail⟩

/- Claim-facing theorems. -/

/-- C8: `Client::new` (through `set_servers`) returns the construction-time
parse error whenever any of the given address strings fails to parse as a
socket address; no client value is produced. -/
theorem client_new_unparsable_error (parse : String → Option SocketAddr)
    (servers : List String) (h : ∃ srv ∈ servers, parse srv = none) :
    Client.new parse servers =
      Except.error (OperationError.ClientError INVALID_ADDR_MSG) := by
  have h1 := set_servers_first_err parse servers ServerList.new h
  unfold Client.new
  cases hres : ServerList.set_servers parse ServerList.new servers with
  | mk fst snd =>
    rw [hres] at h1
    simp only at h1
    rw [h1]

/-- C8 witness: a list whose second entry does not parse. -/
theorem client_new_unparsable_error_witness :
    (∃ srv ∈ ["127.0.0.1:11211", "not an address"], parse0 srv = none) ∧
    Client.new parse0 ["127.0.0.1:11211", "not an address"] =
      Except.error (OperationError.ClientError INVALID_ADDR_MSG) :=
  ⟨⟨"not an address", by simp, by simp [parse0]⟩,
   client_new_unparsable_error parse0 ["127.0.0.1:11211", "not an address"]
     ⟨"not an address", by simp, by simp [parse0]⟩⟩

/-- C10: `set_servers` appends parsed addresses one at a time and stops at
the first failure: on error the addresses parsed before the failing entry
remain appended to the existing list (the update is not atomic on error),
and a successful call appends to — rather than replaces — whatever the
list already holds, so a second successful call grows it. -/
theorem set_servers_appends_not_atomic (parse : String → Option SocketAddr)
    (s : ServerList) :
    (∀ pre srv post, (∀ x ∈ pre, (parse x).isSome) → parse srv = none →
      ServerList.set_servers parse s (pre ++ srv :: post) =
        (Except.error (OperationError.ClientError INVALID_ADDR_MSG),
         { s with addrs := s.addrs ++ pre.filterMap parse })) ∧
    (∀ l, (∀ x ∈ l, (parse x).isSome) →
      ServerList.set_servers parse s l =
        (Except.ok (), { s with addrs := s.addrs ++ l.filterMap parse })) :=
  ⟨fun pre srv post h1 h2 => set_servers_err_state parse pre srv post s h1 h2,
   fun l h => set_servers_ok parse l s h⟩

/-- C10 witness: one parse-ok entry followed by a failing entry leaves the
first address behind; a later successful call appends to it. -/
theorem set_servers_appends_not_atomic_witness :
    ((∀ x ∈ ["127.0.0.1:11211"], (parse0 x).isSome) ∧ parse0 "bogus" = none) ∧
    ServerList.set_servers parse0 ServerList.new
        (["127.0.0.1:11211"] ++ "bogus" :: []) =
      (Except.error (OperationError.ClientError INVALID_ADDR_MSG),
       { ServerList.new with
          addrs := ServerList.new.addrs ++ ["127.0.0.1:11211"].filterMap parse0 }) :=
  ⟨⟨by simp [parse0], by simp [parse0]⟩,
   (set_servers_appends_not_atomic parse0 ServerList.new).1 ["127.0.0.1:11211"]
     "bogus" [] (by simp [parse0]) (by simp [parse0])⟩

/-- C3: for every valid key (in the sense of `legal_key`) and every server
list with more than one server (and an address count representable in
`u32`, as in any realizable process), `pick_server` returns the address at
index `crc32(key bytes) mod N`. -/
theorem pick_server_crc32_mod (sl : ServerList) (key : List Nat)
    (hvalid : legal_key key = true) (hn : 1 < sl.addrs.length)
    (hcast : sl.addrs.length < 4294967296) :
    (ServerList.pick_server sl key).1 =
      Outcome.ok (sl.addrs.getD (crc32 key % sl.addrs.length) "") := by
  have hk : key.length ≤ 256 := by
    unfold legal_key at hvalid
    by_cases h : key.length > 250
    · rw [if_pos h] at hvalid; exact absurd hvalid (by simp)
    · omega
  rw [pick_server_large sl key hn hcast hk]

/-- C3 witness: the two-server list and the key [1,2,3]. -/
theorem pick_server_crc32_mod_witness :
    (legal_key [1, 2, 3] = true ∧ 1 < sl2.addrs.length ∧
      sl2.addrs.length < 4294967296) ∧
    (ServerList.pick_server sl2 [1, 2, 3]).1 =
      Outcome.ok (sl2.addrs.getD (crc32 [1, 2, 3] % sl2.addrs.length) "") :=
  ⟨⟨by decide, by decide, by decide⟩,
   pick_server_crc32_mod sl2 [1, 2, 3] (by decide) (by decide) (by decide)⟩

/-- C6: with exactly one configured server, `pick_server` returns that
server's address directly, leaving the state (in particular the key
buffer) untouched — no copy, no hashing — for every key. -/
theorem pick_server_single (sl : ServerList) (key : List Nat) (a : SocketAddr)
    (h : sl.addrs = [a]) :
    ServerList.pick_server sl key = (Outcome.ok a, sl) := by
  unfold ServerList.pick_server
  rw [h]
  simp

/-- C6 witness: the one-server list and a concrete key. -/
theorem pick_server_single_witness :
    sl1.addrs = ["127.0.0.1:11211"] ∧
    ServerList.pick_server sl1 [99, 111, 108, 111, 114] =
      (Outcome.ok "127.0.0.1:11211", sl1) :=
  ⟨rfl, pick_server_single sl1 [99, 111, 108, 111, 114] "127.0.0.1:11211" rfl⟩

/-- C7: `pick_server` is deterministic per key for a fixed server list:
two states with the same addresses (the key buffer may hold any residue of
earlier calls) yield the same result for the same key, and a call
preserves the address list, so repeated calls agree. Stated for more than
one server, keys that fit the 256-byte buffer, and a `u32`-representable
address count. -/
theorem pick_server_deterministic (s1 s2 : ServerList) (key : List Nat)
    (haddr : s1.addrs = s2.addrs) (hn : 1 < s1.addrs.length)
    (hk : key.length ≤ 256) (hcast : s1.addrs.length < 4294967296) :
    ((ServerList.pick_server s1 key).2).addrs = s1.addrs ∧
    (ServerList.pick_server s1 key).1 = (ServerList.pick_server s2 key).1 := by
  rw [pick_server_large s1 key hn hcast hk,
    pick_server_large s2 key (haddr ▸ hn) (haddr ▸ hcast) hk, haddr]
  exact ⟨rfl, rfl⟩

/-- C7 witness: same addresses, different buffer residues, same key. -/
theorem pick_server_deterministic_witness :
    (sl2.addrs = sl2b.addrs ∧ 1 < sl2.addrs.length ∧ ([5, 6].length ≤ 256) ∧
      sl2.addrs.length < 4294967296) ∧
    ((ServerList.pick_server sl2 [5, 6]).2).addrs = sl2.addrs ∧
    (ServerList.pick_server sl2 [5, 6]).1 = (ServerList.pick_server sl2b [5, 6]).1 :=
  ⟨⟨by decide, by decide, by decide, by decide⟩,
   pick_server_deterministic sl2 sl2b [5, 6] (by decide) (by decide)
     (by decide) (by decide)⟩

/-- C4 counterexample: on an empty server list the error `pick_server`
returns is `ClientError "no servers configured or available"`, not the
`NoServersError` variant the claim names. -/
theorem pick_server_empty_not_noservers_variant :
    (ServerList.pick_server sl0 []).1 =
      Outcome.err (OperationError.ClientError "no servers configured or available") ∧
    (ServerList.pick_server sl0 []).1 ≠ Outcome.err OperationError.NoServersError := by
  constructor
  · rfl
  · intro h
    have e : (ServerList.pick_server sl0 []).1 =
        Outcome.err (OperationError.ClientError "no servers configured or available") :=
      rfl
    rw [e] at h
    simp at h

/-- C4 amended: `pick_server` on an empty server list returns an error for
every key — the `Client` variant carrying the message
"no servers configured or available" — and never an address. -/
theorem pick_server_empty_client_error (sl : ServerList) (key : List Nat)
    (h : sl.addrs = []) :
    ServerList.pick_server sl key =
      (Outcome.err (OperationError.ClientError "no servers configured or available"),
       sl) := by
  unfold ServerList.pick_server
  rw [h]
  simp

/-- C4 witness: the empty server list with a concrete key. -/
theorem pick_server_empty_client_error_witness :
    sl0.addrs = [] ∧
    ServerList.pick_server sl0 [107] =
      (Outcome.err (OperationError.ClientError "no servers configured or available"),
       sl0) :=
  ⟨rfl, pick_server_empty_client_error sl0 [107] rfl⟩

/-- C9: `pick_server` copies the key into the fixed 256-byte buffer with
no length check: with at least two servers (count below 2^32), any key of
at most 256 bytes is hashed in bounds and an address is returned, while
any key longer than 256 bytes makes the slice of the buffer panic. -/
theorem pick_server_buffer_overflow (sl : ServerList) (key : List Nat)
    (hn : 1 < sl.addrs.length) (hcast : sl.addrs.length < 4294967296) :
    (key.length ≤ 256 →
      (ServerList.pick_server sl key).1 =
        Outcome.ok (sl.addrs.getD (crc32 key % sl.addrs.length) "")) ∧
    (256 < key.length → (ServerList.pick_server sl key).1 = Outcome.panic) := by
  constructor
  · intro hk
    rw [pick_server_large sl key hn hcast hk]
  · intro hk
    unfold ServerList.pick_server
    rw [if_neg (by omega), if_neg (by omega), if_pos hk]

set_option maxRecDepth 4096 in
/-- C9 witness: a 257-byte key panics on the two-server list; a 3-byte key
returns an address. -/
theorem pick_server_buffer_overflow_witness :
    (1 < sl2.addrs.length ∧ sl2.addrs.length < 4294967296 ∧
      256 < (List.replicate 257 97).length ∧ ([1, 2, 3] : List Nat).length ≤ 256) ∧
    (ServerList.pick_server sl2 (List.replicate 257 97)).1 = Outcome.panic ∧
    (ServerList.pick_server sl2 [1, 2, 3]).1 =
      Outcome.ok (sl2.addrs.getD (crc32 [1, 2, 3] % sl2.addrs.length) "") :=
  ⟨⟨by decide, by decide, by simp, by decide⟩,
   (pick_server_buffer_overflow sl2 (List.replicate 257 97) (by decide)
      (by decide)).2 (by simp),
   (pick_server_buffer_overflow sl2 [1, 2, 3] (by decide) (by decide)).1
     (by decide)⟩

/-- C1 (evaluation at the failing input): with the default
`max_idle_cons = 2`, releasing three connections for the same address grows
that address's free list to three entries — `put_free_conn` never consults
`max_idle_cons`, so the claimed per-address bound does not hold and no
connection is closed. -/
theorem put_free_conn_exceeds_max_idle :
    c1.max_idle_cons = 2 ∧
    ∃ l, (((c1.put_free_conn "127.0.0.1:11211" 10).put_free_conn
          "127.0.0.1:11211" 11).put_free_conn "127.0.0.1:11211" 12).free_conns.lookup
        "127.0.0.1:11211" = some l ∧ c1.max_idle_cons < l.length :=
  ⟨rfl, ⟨[10, 11, 12], rfl, by decide⟩⟩

/-- C5 (evaluation at the failing input): with an empty pool and a failing
dial, `get_conn` returns `OperationError.NoServersError`, which is not the
`IoError` connectivity category for any underlying I/O error. -/
theorem get_conn_dial_failure_no_servers :
    (Client.get_conn (fun _ => none) c1 "127.0.0.1:11211").1 =
      Except.error OperationError.NoServersError ∧
    ∀ e : WriteReadLineError,
      (Except.error OperationError.NoServersError : Except OperationError Conn) ≠
        Except.error (OperationError.IoError e) := by
  refine ⟨rfl, fun e h => ?_⟩
  simp at h

/-- C2 counterexample: the single-byte key consisting of one space byte is
accepted by `legal_key` although it is embedded whitespace, refuting
"accepts iff at most 250 bytes and no whitespace/control bytes". -/
theorem legal_key_claim_false_on_space :
    ¬ (legal_key [32] = true ↔ legal_key_spec [32] = true) := by decide

/-- C2 amended: `legal_key` accepts a key iff it is at most 250 bytes
long; no whitespace/control-byte content check is performed. -/
theorem legal_key_iff_length (key : List Nat) :
    legal_key key = true ↔ key.length ≤ 250 := by
  unfold legal_key
  by_cases h : key.length > 250
  · simp [h]
  · simp [h]
    omega

set_option maxRecDepth 4096 in
/-- Sanity check that `crc32` is the standard CRC-32 computed by
`crc32fast::hash`: its check value over the ASCII bytes of "123456789" is
0xCBF43926. -/
lemma crc32_check_value :
    crc32 [49, 50, 51, 52, 53, 54, 55, 56, 57] = 0xCBF43926 := by decide

end Rsmemcache
